import Mathlib

/-!
Shallow embedding of the go-nat-listener core (package `nattraversal`).

The Go code is translated into pure Lean functions.  External effects
(context cancellation, results of the UPnP / NAT-PMP constructors, socket
binds, device responses) are supplied through explicit environment records,
and observable side effects (UnmapPort calls, port-change callback
invocations, closes of the underlying socket) are returned as event lists.
Go `int` ports are modelled as `Int`; error values as `Except String`.
-/

/-! ## Port-mapping selector (`portmapper.go`, `NewPortMapperContext`) -/

/-- The two protocol backends the selector can return. -/
inductive MapperKind
  | upnp
  | natpmp
deriving DecidableEq

/-- When (if ever) the caller-supplied context becomes cancelled, identified
by the first selector checkpoint able to observe it: `beforeStart` is seen by
the `ctx.Err()` check at the top of `NewPortMapperContext`, `beforeFallback`
is cancellation during the UPnP attempt or between the two attempts (seen by
the `ctx.Err()` check after the UPnP attempt), and `duringNATPMP` is
cancellation after that second check, while the NAT-PMP attempt runs. -/
inductive CancelPhase
  | beforeStart
  | beforeFallback
  | duringNATPMP
deriving DecidableEq

/-- Environment of one `NewPortMapperContext` run: the context's cancellation
behaviour and the outcomes of the two protocol constructors. -/
structure SelectorEnv where
  cancel : Option CancelPhase
  cancelMsg : String
  upnpOk : Bool
  natpmpOk : Bool
  natpmpErrMsg : String
deriving DecidableEq

/-- `ctx.Err() != nil` at the check before the UPnP attempt. -/
def SelectorEnv.errAtStart (e : SelectorEnv) : Bool :=
  match e.cancel with
  | some .beforeStart => true
  | _ => false

/-- `ctx.Err() != nil` at the check between the two attempts. -/
def SelectorEnv.errAfterUPnP (e : SelectorEnv) : Bool :=
  match e.cancel with
  | some .beforeStart => true
  | some .beforeFallback => true
  | _ => false

/-- The composite error message built by `fmt.Errorf` when both protocol
constructors fail; only the NAT-PMP error is wrapped. -/
def bothFailedMsg (natpmpErr : String) : String :=
  "no NAT traversal available: UPnP failed, NAT-PMP failed: " ++ natpmpErr

/-- `NewPortMapperContext` from `portmapper.go`: check the context, try the
UPnP constructor, check the context again, then fall back to NAT-PMP.
Besides the result, the list of protocol constructors actually attempted is
returned (so "NAT-PMP is never attempted" is a statement about the model). -/
def NewPortMapperContext (e : SelectorEnv) :
    Except String MapperKind × List MapperKind :=
  if e.errAtStart then
    (.error ("context cancelled: " ++ e.cancelMsg), [])
  else if e.upnpOk then
    (.ok .upnp, [.upnp])
  else if e.errAfterUPnP then
    (.error ("context cancelled after UPnP attempt: " ++ e.cancelMsg), [.upnp])
  else if e.natpmpOk then
    (.ok .natpmp, [.upnp, .natpmp])
  else
    (.error (bothFailedMsg e.natpmpErrMsg), [.upnp, .natpmp])

/-- `hay` has `needle` as a contiguous sub-list (the error message literally
names the failure). -/
def mentions (needle hay : List Char) : Prop :=
  ∃ p q, hay = p ++ needle ++ q

/-- Both cancellation errors produced by the selector start with this text. -/
def cancelledHead : String := "context cancelled"

/-- Whether a selector outcome is a cancellation error (its message starts
with "context cancelled"), as opposed to a protocol-failure error. -/
def isCancellationError (r : Except String MapperKind) : Bool :=
  match r with
  | .error m => cancelledHead.data.isPrefixOf m.data
  | .ok _ => false

theorem string_data_append (a b : String) : (a ++ b).data = a.data ++ b.data := rfl

theorem mentions_of_append_right (needle s : List Char) (m : List Char)
    (h : mentions needle s) : mentions needle (s ++ m) := by
  obtain ⟨p, q, hpq⟩ := h
  exact ⟨p, q ++ m, by simp [hpq]⟩

/-- The composite both-failed message names the UPnP failure. -/
theorem bothFailedMsg_mentions_upnp (m : String) :
    mentions "UPnP failed".data (bothFailedMsg m).data := by
  have h : (bothFailedMsg m).data =
      "no NAT traversal available: UPnP failed, NAT-PMP failed: ".data ++ m.data :=
    string_data_append _ m
  rw [h]
  apply mentions_of_append_right
  exact ⟨"no NAT traversal available: ".data, ", NAT-PMP failed: ".data, by decide⟩

/-- The composite both-failed message names the NAT-PMP failure. -/
theorem bothFailedMsg_mentions_natpmp (m : String) :
    mentions "NAT-PMP failed".data (bothFailedMsg m).data := by
  have h : (bothFailedMsg m).data =
      "no NAT traversal available: UPnP failed, NAT-PMP failed: ".data ++ m.data :=
    string_data_append _ m
  rw [h]
  apply mentions_of_append_right
  exact ⟨"no NAT traversal available: UPnP failed, ".data, ": ".data, by decide⟩

/-- C1: For every call to the port-mapping selector (`NewPortMapperContext`
with a non-cancelled context): if the UPnP constructor succeeds its mapper is
returned and NAT-PMP is never attempted; if UPnP fails and NAT-PMP succeeds
the NAT-PMP mapper is returned; if both fail, the returned error names both
the UPnP failure and the NAT-PMP failure. -/
theorem selector_order_and_composite_error (e : SelectorEnv)
    (hc : e.cancel = none) :
    (e.upnpOk = true →
      NewPortMapperContext e = (.ok .upnp, [.upnp])) ∧
    (e.upnpOk = false → e.natpmpOk = true →
      (NewPortMapperContext e).1 = .ok .natpmp) ∧
    (e.upnpOk = false → e.natpmpOk = false →
      (NewPortMapperContext e).1 = .error (bothFailedMsg e.natpmpErrMsg) ∧
      mentions "UPnP failed".data (bothFailedMsg e.natpmpErrMsg).data ∧
      mentions "NAT-PMP failed".data (bothFailedMsg e.natpmpErrMsg).data) := by
  have h1 : e.errAtStart = false := by simp [SelectorEnv.errAtStart, hc]
  have h2 : e.errAfterUPnP = false := by simp [SelectorEnv.errAfterUPnP, hc]
  refine ⟨?_, ?_, ?_⟩
  · intro hu
    simp [NewPortMapperContext, h1, h2, hu]
  · intro hu hn
    simp [NewPortMapperContext, h1, h2, hu, hn]
  · intro hu hn
    refine ⟨by simp [NewPortMapperContext, h1, h2, hu, hn], ?_, ?_⟩
    · exact bothFailedMsg_mentions_upnp _
    · exact bothFailedMsg_mentions_natpmp _

theorem selector_order_and_composite_error_witness :
    (NewPortMapperContext ⟨none, "", false, false, "pmp unreachable"⟩).1 =
      .error (bothFailedMsg "pmp unreachable") ∧
    mentions "UPnP failed".data (bothFailedMsg "pmp unreachable").data := by
  have h := selector_order_and_composite_error
    ⟨none, "", false, false, "pmp unreachable"⟩ rfl
  have h3 := h.2.2 rfl rfl
  exact ⟨h3.1, h3.2.1⟩

theorem isCancellation_at_start_msg (msg : String) :
    isCancellationError (.error ("context cancelled: " ++ msg)) = true := rfl

theorem isCancellation_after_upnp_msg (msg : String) :
    isCancellationError
      (.error ("context cancelled after UPnP attempt: " ++ msg)) = true := rfl

theorem isCancellation_bothFailed (m : String) :
    isCancellationError (.error (bothFailedMsg m)) = false := rfl

/-- C6 counterexample: with cancellation striking during the NAT-PMP attempt
(causing its failure, UPnP having already failed), the selector returns the
both-protocols-failed error, not a cancellation error, because there is no
context check after the NAT-PMP attempt. -/
theorem selector_cancellation_not_always_first :
    (SelectorEnv.cancel
      ⟨some .duringNATPMP, "context canceled", false, false, "pmp refused"⟩).isSome
      = true ∧
    (NewPortMapperContext
      ⟨some .duringNATPMP, "context canceled", false, false, "pmp refused"⟩).1 =
      .error (bothFailedMsg "pmp refused") ∧
    isCancellationError
      (NewPortMapperContext
        ⟨some .duringNATPMP, "context canceled", false, false, "pmp refused"⟩).1 =
      false := by
  refine ⟨rfl, rfl, ?_⟩
  have h : (NewPortMapperContext
      ⟨some .duringNATPMP, "context canceled", false, false, "pmp refused"⟩).1 =
      .error (bothFailedMsg "pmp refused") := rfl
  rw [h]
  exact isCancellation_bothFailed _

/-- C6 amended: cancellation observed at the initial check, or cancellation
during the UPnP attempt / between the two attempts (observed at the second
check, the UPnP attempt having failed), takes precedence and yields a
cancellation error; but cancellation during the NAT-PMP attempt is never
checked, so the selector then reports the both-protocols-failed error. -/
theorem selector_cancellation_precedence (e : SelectorEnv) :
    (e.cancel = some .beforeStart →
      isCancellationError (NewPortMapperContext e).1 = true) ∧
    (e.cancel = some .beforeFallback → e.upnpOk = false →
      isCancellationError (NewPortMapperContext e).1 = true) ∧
    (e.cancel = some .duringNATPMP → e.upnpOk = false → e.natpmpOk = false →
      (NewPortMapperContext e).1 = .error (bothFailedMsg e.natpmpErrMsg) ∧
      isCancellationError (NewPortMapperContext e).1 = false) := by
  refine ⟨?_, ?_, ?_⟩
  · intro hc
    have h1 : e.errAtStart = true := by simp [SelectorEnv.errAtStart, hc]
    simp only [NewPortMapperContext, h1, if_true]
    exact isCancellation_at_start_msg e.cancelMsg
  · intro hc hu
    have h1 : e.errAtStart = false := by simp [SelectorEnv.errAtStart, hc]
    have h2 : e.errAfterUPnP = true := by simp [SelectorEnv.errAfterUPnP, hc]
    simp only [NewPortMapperContext, h1, h2, hu, if_false, if_true,
      Bool.false_eq_true]
    exact isCancellation_after_upnp_msg e.cancelMsg
  · intro hc hu hn
    have h1 : e.errAtStart = false := by simp [SelectorEnv.errAtStart, hc]
    have h2 : e.errAfterUPnP = false := by simp [SelectorEnv.errAfterUPnP, hc]
    have h3 : (NewPortMapperContext e).1 = .error (bothFailedMsg e.natpmpErrMsg) := by
      simp [NewPortMapperContext, h1, h2, hu, hn]
    exact ⟨h3, by rw [h3]; exact isCancellation_bothFailed _⟩

theorem selector_cancellation_precedence_witness :
    isCancellationError
      (NewPortMapperContext ⟨some .beforeStart, "context canceled", false, true, ""⟩).1
      = true := by
  exact (selector_cancellation_precedence
    ⟨some .beforeStart, "context canceled", false, true, ""⟩).1 rfl

/-! ## Renewal manager (`renewalmanager.go`) -/

/-- State of a `RenewalManager`.  The Go struct's `mapper`, `ticker`, `done`
and `mu` fields are concurrency plumbing with no influence on the sequential
state transitions modelled here; `onPortChange` records whether a callback is
registered (its invocations are returned as event lists). -/
structure RenewalManager where
  protocol : String
  internalPort : Int
  externalPort : Int
  started : Bool
  onPortChange : Bool
deriving DecidableEq

/-- `NewRenewalManager`: fresh manager, not started, no callback. -/
def NewRenewalManager (protocol : String) (internalPort externalPort : Int) :
    RenewalManager :=
  { protocol := protocol, internalPort := internalPort,
    externalPort := externalPort, started := false, onPortChange := false }

/-- `SetPortChangeCallback`: registers the callback. -/
def RenewalManager.SetPortChangeCallback (r : RenewalManager) : RenewalManager :=
  { r with onPortChange := true }

/-- `ExternalPort`: current external port (read under the lock in Go). -/
def RenewalManager.ExternalPort (r : RenewalManager) : Int :=
  r.externalPort

/-- `Start`: no-op when already started, otherwise marks the manager running
(and, in Go, arms a fresh ticker/done pair and launches the loop). -/
def RenewalManager.Start (r : RenewalManager) : RenewalManager :=
  if r.started then r else { r with started := true }

/-- `Stop`: no-op when not started; otherwise marks the manager stopped and
issues exactly one `UnmapPort(protocol, externalPort)` call, returned as an
event.  The unmap outcome `unmapResult` is only logged by the Go code, so the
returned state and events do not depend on it. -/
def RenewalManager.Stop (r : RenewalManager) (_unmapResult : Except String Unit) :
    RenewalManager × List (String × Int) :=
  if r.started = false then (r, [])
  else ({ r with started := false }, [(r.protocol, r.externalPort)])

/-- `renew`: one renewal step, driven by the outcome `mapResult` of
`mapper.MapPort(protocol, internalPort, mappingDuration)`.  On failure the
state is untouched; on success the recorded port is replaced when it changed,
and the callback (when registered) is invoked, outside the lock, with the new
port — invocations are returned as the event list. -/
def RenewalManager.renew (r : RenewalManager) (mapResult : Except String Int) :
    RenewalManager × List Int :=
  match mapResult with
  | .error _ => (r, [])
  | .ok newPort =>
      let oldPort := r.externalPort
      let r' := if newPort ≠ oldPort then { r with externalPort := newPort } else r
      let events := if newPort ≠ oldPort ∧ r.onPortChange then [newPort] else []
      (r', events)

/-- C2: in a renewal manager with a registered callback, a successful renew
returning a changed port fires the callback exactly once with the new port
and makes `ExternalPort` return it; an unchanged port fires no callback and
leaves the state untouched. -/
theorem renew_port_change_callback (r : RenewalManager) (newPort : Int)
    (hcb : r.onPortChange = true) :
    (newPort ≠ r.externalPort →
      (r.renew (.ok newPort)).2 = [newPort] ∧
      ((r.renew (.ok newPort)).1).ExternalPort = newPort) ∧
    (newPort = r.externalPort →
      (r.renew (.ok newPort)).2 = [] ∧
      (r.renew (.ok newPort)).1 = r) := by
  constructor
  · intro hne
    simp [RenewalManager.renew, RenewalManager.ExternalPort, hne, hcb]
  · intro heq
    simp [RenewalManager.renew, heq]

theorem renew_port_change_callback_witness :
    ((8080 : Int) ≠ (9090 : Int) ∧
      ((NewRenewalManager "TCP" 8080 9090).SetPortChangeCallback.renew
        (.ok 8080)).2 = [8080]) ∧
    ((9090 : Int) = (9090 : Int) ∧
      ((NewRenewalManager "TCP" 8080 9090).SetPortChangeCallback.renew
        (.ok 9090)).2 = []) := by
  have h1 := renew_port_change_callback
    ((NewRenewalManager "TCP" 8080 9090).SetPortChangeCallback) 8080 rfl
  have h2 := renew_port_change_callback
    ((NewRenewalManager "TCP" 8080 9090).SetPortChangeCallback) 9090 rfl
  exact ⟨⟨by decide, (h1.1 (by decide)).1⟩, ⟨rfl, (h2.2 rfl).1⟩⟩

/-- C3: `Start` while running is a no-op; `Stop` while not running is a
no-op; the transition from running to stopped issues exactly one
`UnmapPort(protocol, current externalPort)` call; and the unmap outcome is
not surfaced — `Stop`'s visible result is identical whatever the unmap
returns. -/
theorem start_stop_unmap_once (r : RenewalManager) (e : Except String Unit) :
    (r.started = true → r.Start = r) ∧
    (r.started = false → r.Stop e = (r, [])) ∧
    (r.started = true →
      (r.Stop e).2 = [(r.protocol, r.externalPort)] ∧
      ((r.Stop e).1).started = false) ∧
    (∀ e2 : Except String Unit, r.Stop e = r.Stop e2) := by
  refine ⟨?_, ?_, ?_, ?_⟩
  · intro h
    simp [RenewalManager.Start, h]
  · intro h
    simp [RenewalManager.Stop, h]
  · intro h
    simp [RenewalManager.Stop, h]
  · intro e2
    rfl

theorem start_stop_unmap_once_witness :
    ((NewRenewalManager "TCP" 8080 8080).started = false ∧
      (NewRenewalManager "TCP" 8080 8080).Stop (.ok ()) =
        (NewRenewalManager "TCP" 8080 8080, [])) ∧
    (((NewRenewalManager "TCP" 8080 8080).Start).started = true ∧
      (((NewRenewalManager "TCP" 8080 8080).Start).Stop
        (.error "device unreachable")).2 = [("TCP", 8080)]) := by
  have h0 := start_stop_unmap_once (NewRenewalManager "TCP" 8080 8080) (.ok ())
  have h1 := start_stop_unmap_once ((NewRenewalManager "TCP" 8080 8080).Start)
    (.error "device unreachable")
  exact ⟨⟨rfl, h0.2.1 rfl⟩, ⟨rfl, (h1.2.2.1 rfl).1⟩⟩

/-- C8 counterexample: a concrete manager taken from Idle through
`Start`/`Stop` to Stopped is returned to Running by a subsequent `Start` —
the Stopped state is not terminal (`Stop` clears `started`, and `Start`
re-arms whenever `started` is false; the Go comment even advertises multiple
Start/Stop cycles). -/
theorem stopped_is_not_terminal :
    ((((NewRenewalManager "TCP" 8080 8080).Start).Stop (.ok ())).1).started
      = false ∧
    (((((NewRenewalManager "TCP" 8080 8080).Start).Stop (.ok ())).1).Start).started
      = true := by
  exact ⟨rfl, rfl⟩

/-- C8 amended: Stopped is not terminal — after any stop, a further `Start`
returns the manager to Running; repeated `Start`/`Stop` calls are tolerated
in every state (both are idempotent, and a second `Stop` issues no further
unmap call). -/
theorem stop_then_start_restarts (r : RenewalManager) (e : Except String Unit) :
    ((((r.Start).Stop e).1).Start).started = true ∧
    (r.Start).Start = r.Start ∧
    (((r.Stop e).1).Stop e) = ((r.Stop e).1, []) := by
  refine ⟨?_, ?_, ?_⟩
  · by_cases h : r.started <;>
      simp [RenewalManager.Start, RenewalManager.Stop, h]
  · by_cases h : r.started <;> simp [RenewalManager.Start, h]
  · by_cases h : r.started <;> simp [RenewalManager.Stop, h]

/-! ## NAT address (`addr.go`) and listener construction
(`listener.go`, `packetlistener.go`) -/

/-- `NATAddr`: immutable triple of network and endpoint strings. -/
structure NATAddr where
  network : String
  internalAddr : String
  externalAddr : String
deriving DecidableEq

/-- `NewNATAddr`. -/
def NewNATAddr (network internalAddr externalAddr : String) : NATAddr :=
  { network := network, internalAddr := internalAddr, externalAddr := externalAddr }

/-- `NATAddr.Network`. -/
def NATAddr.Network (a : NATAddr) : String := a.network

/-- `NATAddr.InternalAddr`. -/
def NATAddr.InternalAddr (a : NATAddr) : String := a.internalAddr

/-- `NATAddr.ExternalAddr`. -/
def NATAddr.ExternalAddr (a : NATAddr) : String := a.externalAddr

/-- Go's `String()` method on `NATAddr`: the external address. -/
def NATAddr.render (a : NATAddr) : String := a.externalAddr

/-- `NATListener` (TCP wrapper).  The wrapped `net.Listener` handle is not
modelled; everything else follows the struct in `listener.go` (with the
`fallback` field its fallback constructor assigns). -/
structure NATListener where
  internalAddr : String
  externalIP : String
  externalPort : Int
  addr : NATAddr
  renewal : Option RenewalManager
  fallback : Bool
  closed : Bool
deriving DecidableEq

/-- Modelled from the spec: the `NATListener.IsFallback` accessor itself is
not under src (only its doc comment and callers are); per the spec a fallback
listener's predicate "must report true", i.e. it reads the fallback flag. -/
def NATListener.IsFallback (l : NATListener) : Bool := l.fallback

/-- Modelled from the spec: the `NATListener.ExternalPort` accessor is not
under src (its packet-listener counterpart is); per the spec it returns the
current external port under the lock. -/
def NATListener.ExternalPort (l : NATListener) : Int := l.externalPort

/-- Environment of a `ListenContext` / `ListenPacketContext` run: the three
`ctx.Err()` checkpoints, the mapping-creation outcome (`.ok externalPort`;
the mapper itself is abstracted), the socket bind (giving the local address
string), and the `GetExternalIP` query. -/
structure ListenEnv where
  errAtStart : Bool
  mapping : Except String Int
  errAfterMapping : Bool
  bind : Except String String
  errAfterBind : Bool
  externalIP : Except String String

/-- `ListenContext` from `listener.go`.  Returns the constructed listener or
the error, paired with the list of `UnmapPort(protocol, externalPort)` calls
made on the way out (closing of the just-bound socket on late failures is not
tracked; only the mapping-leak behaviour is at stake here). -/
def ListenContext (port : Int) (env : ListenEnv) :
    Except String NATListener × List (String × Int) :=
  if env.errAtStart then
    (.error "context cancelled before starting", [])
  else
    match env.mapping with
    | .error m => (.error ("failed to create port mapping: " ++ m), [])
    | .ok externalPort =>
      if env.errAfterMapping then
        (.error "context cancelled after mapping", [("TCP", externalPort)])
      else
        match env.bind with
        | .error m =>
            (.error ("failed to create listener: " ++ m), [("TCP", externalPort)])
        | .ok internalAddr =>
          if env.errAfterBind then
            (.error "context cancelled after listener creation",
              [("TCP", externalPort)])
          else
            match env.externalIP with
            | .error m =>
                (.error ("failed to get external IP: " ++ m),
                  [("TCP", externalPort)])
            | .ok externalIP =>
              let externalAddr := externalIP ++ ":" ++ toString externalPort
              let addr := NewNATAddr "tcp" internalAddr externalAddr
              let renewal :=
                ((NewRenewalManager "TCP" port externalPort).SetPortChangeCallback).Start
              (.ok { internalAddr := internalAddr, externalIP := externalIP,
                     externalPort := externalPort, addr := addr,
                     renewal := some renewal, fallback := false,
                     closed := false }, [])

/-- `NATPacketListener` state (UDP wrapper), from `natpacketlistener.go` /
`packetlistener.go`; the wrapped `net.PacketConn` handle itself lives in the
`PacketWorld` close model below. -/
structure NATPacketListener where
  internalAddr : String
  externalIP : String
  externalPort : Int
  addr : NATAddr
  renewal : Option RenewalManager
  fallback : Bool
  closed : Bool
  cachedConnExists : Bool
deriving DecidableEq

/-- `NATPacketListener.ExternalPort` accessor (from the source): the current
external port, read under the lock. -/
def NATPacketListener.ExternalPort (l : NATPacketListener) : Int :=
  l.externalPort

/-- Modelled from the spec: the `NATPacketListener.IsFallback` accessor is
not under src (only its doc comment and callers are); it reads the fallback
flag. -/
def NATPacketListener.IsFallback (l : NATPacketListener) : Bool := l.fallback

/-- `ListenPacketContext` from `packetlistener.go`, shaped exactly like
`ListenContext` but binding a UDP socket and mapping protocol "UDP". -/
def ListenPacketContext (port : Int) (env : ListenEnv) :
    Except String NATPacketListener × List (String × Int) :=
  if env.errAtStart then
    (.error "context cancelled before starting", [])
  else
    match env.mapping with
    | .error m => (.error ("failed to create port mapping: " ++ m), [])
    | .ok externalPort =>
      if env.errAfterMapping then
        (.error "context cancelled after mapping", [("UDP", externalPort)])
      else
        match env.bind with
        | .error m =>
            (.error ("failed to create packet conn: " ++ m), [("UDP", externalPort)])
        | .ok internalAddr =>
          if env.errAfterBind then
            (.error "context cancelled after connection creation",
              [("UDP", externalPort)])
          else
            match env.externalIP with
            | .error m =>
                (.error ("failed to get external IP: " ++ m),
                  [("UDP", externalPort)])
            | .ok externalIP =>
              let externalAddr := externalIP ++ ":" ++ toString externalPort
              let addr := NewNATAddr "udp" internalAddr externalAddr
              let renewal :=
                ((NewRenewalManager "UDP" port externalPort).SetPortChangeCallback).Start
              (.ok { internalAddr := internalAddr, externalIP := externalIP,
                     externalPort := externalPort, addr := addr,
                     renewal := some renewal, fallback := false,
                     closed := false, cachedConnExists := false }, [])

/-- C4: in both constructors, whenever the port-mapping negotiation succeeded
(`mapping = .ok externalPort`, reachable because the initial context check
passed) but the construction still returns an error — cancellation after
mapping, bind failure, cancellation after bind, or external-IP failure — the
acquired mapping is unmapped exactly once, with the acquired protocol and
external port, before the error is returned. -/
theorem partial_failure_unmaps (port : Int) (env : ListenEnv)
    (externalPort : Int)
    (h0 : env.errAtStart = false)
    (hm : env.mapping = .ok externalPort) :
    (∀ m, (ListenContext port env).1 = .error m →
      (ListenContext port env).2 = [("TCP", externalPort)]) ∧
    (∀ m, (ListenPacketContext port env).1 = .error m →
      (ListenPacketContext port env).2 = [("UDP", externalPort)]) := by
  constructor
  · intro m hres
    by_cases h1 : env.errAfterMapping
    · simp [ListenContext, h0, hm, h1]
    · cases hb : env.bind with
      | error s => simp [ListenContext, h0, hm, h1, hb]
      | ok internalAddr =>
        by_cases h2 : env.errAfterBind
        · simp [ListenContext, h0, hm, h1, hb, h2]
        · cases hip : env.externalIP with
          | error s => simp [ListenContext, h0, hm, h1, hb, h2, hip]
          | ok ip =>
            exfalso
            simp [ListenContext, h0, hm, h1, hb, h2, hip] at hres
  · intro m hres
    by_cases h1 : env.errAfterMapping
    · simp [ListenPacketContext, h0, hm, h1]
    · cases hb : env.bind with
      | error s => simp [ListenPacketContext, h0, hm, h1, hb]
      | ok internalAddr =>
        by_cases h2 : env.errAfterBind
        · simp [ListenPacketContext, h0, hm, h1, hb, h2]
        · cases hip : env.externalIP with
          | error s => simp [ListenPacketContext, h0, hm, h1, hb, h2, hip]
          | ok ip =>
            exfalso
            simp [ListenPacketContext, h0, hm, h1, hb, h2, hip] at hres

theorem partial_failure_unmaps_witness :
    (ListenContext 8080
      ⟨false, .ok 8080, false, .error "address already in use", false, .ok "1.2.3.4"⟩).2
      = [("TCP", (8080 : Int))] := by
  have h := partial_failure_unmaps 8080
    ⟨false, .ok 8080, false, .error "address already in use", false, .ok "1.2.3.4"⟩
    8080 rfl rfl
  exact h.1 "failed to create listener: address already in use" rfl

/-! ## Fallback construction (`ListenWithFallbackContext`,
`ListenPacketWithFallbackContext`) -/

/-- Environment of a fallback construction: the initial context check, the
environment driving the inner full-NAT attempt, the context check after that
attempt, and the plain fallback bind, which yields the bound local address
string together with the port the OS actually bound (equal to the requested
port when that is nonzero; OS-chosen when port 0 was requested). -/
structure FallbackEnv where
  errAtStart : Bool
  inner : ListenEnv
  errAfterNAT : Bool
  bind : Except String (String × Int)

/-- `ListenWithFallbackContext` from `listener.go`: try the full NAT
construction; on failure (context permitting) bind a plain socket and return
a listener with no renewal manager, identical internal/external endpoints,
`fallback` set, and `externalPort` assigned from the *requested* port. -/
def ListenWithFallbackContext (port : Int) (env : FallbackEnv) :
    Except String NATListener × List (String × Int) :=
  if env.errAtStart then
    (.error "context cancelled before starting", [])
  else
    let inner := ListenContext port env.inner
    match inner.1 with
    | .ok l => (.ok l, inner.2)
    | .error natErr =>
      if env.errAfterNAT then
        (.error "context cancelled after NAT attempt", inner.2)
      else
        match env.bind with
        | .error m =>
            (.error ("failed to create fallback listener: " ++ m ++
              " (NAT error: " ++ natErr ++ ")"), inner.2)
        | .ok (internalAddr, _boundPort) =>
            (.ok { internalAddr := internalAddr, externalIP := "",
                   externalPort := port,
                   addr := NewNATAddr "tcp" internalAddr internalAddr,
                   renewal := none, fallback := true, closed := false },
              inner.2)

/-- `ListenPacketWithFallbackContext` from `packetlistener.go`, the UDP
analogue of `ListenWithFallbackContext`. -/
def ListenPacketWithFallbackContext (port : Int) (env : FallbackEnv) :
    Except String NATPacketListener × List (String × Int) :=
  if env.errAtStart then
    (.error "context cancelled before starting", [])
  else
    let inner := ListenPacketContext port env.inner
    match inner.1 with
    | .ok l => (.ok l, inner.2)
    | .error natErr =>
      if env.errAfterNAT then
        (.error "context cancelled after NAT attempt", inner.2)
      else
        match env.bind with
        | .error m =>
            (.error ("failed to create fallback packet listener: " ++ m ++
              " (NAT error: " ++ natErr ++ ")"), inner.2)
        | .ok (internalAddr, _boundPort) =>
            (.ok { internalAddr := internalAddr, externalIP := "",
                   externalPort := port,
                   addr := NewNATAddr "udp" internalAddr internalAddr,
                   renewal := none, fallback := true, closed := false,
                   cachedConnExists := false },
              inner.2)

/-- C7 counterexample: requesting port 0 (for which NAT mapping fails and
the OS binds an ephemeral port, here 43210), the fallback listener's
`ExternalPort()` is the requested 0, not the bound local port 43210 — the
constructor stores the requested port, never the bound one.  `IsFallback`
and the identical endpoints do hold. -/
theorem fallback_externalPort_is_requested_not_bound :
    (ListenWithFallbackContext 0
      ⟨false,
        ⟨false, .error "no NAT traversal available: UPnP failed, NAT-PMP failed: pmp",
          false, .error "", false, .error ""⟩,
        false, .ok ("[::]:43210", 43210)⟩).1 =
      .ok { internalAddr := "[::]:43210", externalIP := "",
            externalPort := 0,
            addr := NewNATAddr "tcp" "[::]:43210" "[::]:43210",
            renewal := none, fallback := true, closed := false } ∧
    (NATListener.ExternalPort
      { internalAddr := "[::]:43210", externalIP := "",
        externalPort := 0,
        addr := NewNATAddr "tcp" "[::]:43210" "[::]:43210",
        renewal := none, fallback := true, closed := false }) = 0 ∧
    (0 : Int) ≠ 43210 := by
  refine ⟨rfl, rfl, by decide⟩

/-- C7 amended: a fallback construction (stream or packet) in which the NAT
attempt fails and the plain bind succeeds returns a listener whose address
has identical internal and external endpoints, whose `IsFallback` is true,
which has no renewal manager, and whose `ExternalPort()` equals the
*requested* port — which coincides with the bound local port exactly when a
nonzero port was requested. -/
theorem fallback_listener_properties (port : Int) (env : FallbackEnv)
    (internalAddr : String) (boundPort : Int) (natErr : String)
    (h0 : env.errAtStart = false)
    (hb : env.bind = .ok (internalAddr, boundPort)) :
    ((ListenContext port env.inner).1 = .error natErr →
      env.errAfterNAT = false →
      ∃ l, (ListenWithFallbackContext port env).1 = .ok l ∧
        l.addr.InternalAddr = l.addr.ExternalAddr ∧
        l.IsFallback = true ∧
        l.renewal = none ∧
        l.ExternalPort = port) ∧
    ((ListenPacketContext port env.inner).1 = .error natErr →
      env.errAfterNAT = false →
      ∃ l, (ListenPacketWithFallbackContext port env).1 = .ok l ∧
        l.addr.InternalAddr = l.addr.ExternalAddr ∧
        l.IsFallback = true ∧
        l.renewal = none ∧
        l.ExternalPort = port) := by
  constructor
  · intro hnat hctx
    refine ⟨{ internalAddr := internalAddr, externalIP := "",
              externalPort := port,
              addr := NewNATAddr "tcp" internalAddr internalAddr,
              renewal := none, fallback := true, closed := false }, ?_, rfl, rfl, rfl, rfl⟩
    simp [ListenWithFallbackContext, h0, hnat, hctx, hb]
  · intro hnat hctx
    refine ⟨{ internalAddr := internalAddr, externalIP := "",
              externalPort := port,
              addr := NewNATAddr "udp" internalAddr internalAddr,
              renewal := none, fallback := true, closed := false,
              cachedConnExists := false }, ?_, rfl, rfl, rfl, rfl⟩
    simp [ListenPacketWithFallbackContext, h0, hnat, hctx, hb]

theorem fallback_listener_properties_witness :
    ∃ l, (ListenWithFallbackContext 8080
      ⟨false,
        ⟨false, .error "no NAT", false, .error "", false, .error ""⟩,
        false, .ok ("192.168.1.10:8080", 8080)⟩).1 = .ok l ∧
      l.addr.InternalAddr = l.addr.ExternalAddr ∧
      l.IsFallback = true ∧
      l.renewal = none ∧
      l.ExternalPort = 8080 := by
  have h := fallback_listener_properties 8080
    ⟨false, ⟨false, .error "no NAT", false, .error "", false, .error ""⟩,
      false, .ok ("192.168.1.10:8080", 8080)⟩
    "192.168.1.10:8080" 8080 "failed to create port mapping: no NAT" rfl rfl
  exact h.1 rfl rfl

/-! ## Coordinated idempotent close (`natpacketlistener.go` `Close`,
`NATPacketConn.Close` with its `sync.Once` guard) -/

/-- The `sync.Once` guard inside `NATPacketConn`: whether the underlying
close has run, and the recorded result (`closeErr`). -/
structure PacketConnGuard where
  closeOnceDone : Bool
  closeErr : Option String
deriving DecidableEq

/-- Shared close state of one packet listener, its (possibly created) cached
`NATPacketConn` wrapper, and the underlying `net.PacketConn`: the listener's
`closed` flag, whether its renewal loop is still running (stopped on close),
the wrapper's guard when the wrapper exists, and how many times the
underlying socket's `Close` has actually been invoked. -/
structure PacketWorld where
  closed : Bool
  renewalRunning : Bool
  cachedConn : Option PacketConnGuard
  underlyingCloseCount : Nat
deriving DecidableEq

/-- `NATPacketConn.Close`: `closeOnce.Do(func() { closeErr = PacketConn.Close() })`
followed by `return closeErr`.  `uErr` is what the underlying close returns
when actually invoked. -/
def NATPacketConnClose (uErr : Option String) (w : PacketWorld) :
    PacketWorld × Option String :=
  match w.cachedConn with
  | none => (w, none)
  | some c =>
    if c.closeOnceDone then (w, c.closeErr)
    else
      ({ w with cachedConn := some { closeOnceDone := true, closeErr := uErr },
                underlyingCloseCount := w.underlyingCloseCount + 1 }, uErr)

/-- `NATPacketListener.Close`: nil when already closed; otherwise mark
closed, stop the renewal manager, and close through the cached wrapper when
one exists (so the `sync.Once` fires at most once), else close the raw
socket directly. -/
def NATPacketListenerClose (uErr : Option String) (w : PacketWorld) :
    PacketWorld × Option String :=
  if w.closed then (w, none)
  else
    let w1 := { w with closed := true, renewalRunning := false }
    match w1.cachedConn with
    | some _ => NATPacketConnClose uErr w1
    | none => ({ w1 with underlyingCloseCount := w1.underlyingCloseCount + 1 }, uErr)

/-- Which handle a `Close()` call goes through. -/
inductive CloseOp
  | listener
  | conn
deriving DecidableEq

/-- One close call, on the chosen handle. -/
def closeStep (uErr : Option String) (op : CloseOp) (w : PacketWorld) :
    PacketWorld × Option String :=
  match op with
  | .listener => NATPacketListenerClose uErr w
  | .conn => NATPacketConnClose uErr w

/-- Run an interleaving of close calls, collecting each call's returned
error. -/
def runCloses (uErr : Option String) (w : PacketWorld) :
    List CloseOp → PacketWorld × List (Option String)
  | [] => (w, [])
  | op :: rest =>
    let s := closeStep uErr op w
    let r := runCloses uErr s.1 rest
    (r.1, s.2 :: r.2)

/-- A live packet listener whose cached wrapper has been created and nothing
closed yet. -/
def initialPacketWorld : PacketWorld :=
  { closed := false, renewalRunning := true,
    cachedConn := some { closeOnceDone := false, closeErr := none },
    underlyingCloseCount := 0 }

/-- Whether the wrapper's once-guard has fired. -/
def PacketWorld.onceDone (w : PacketWorld) : Bool :=
  match w.cachedConn with
  | some c => c.closeOnceDone
  | none => false

/-- Close-coordination invariant for a listener with a cached wrapper: the
underlying socket has been closed exactly as often as the once-guard has
fired, a closed listener implies a fired guard, and the recorded result is
the underlying close's result once fired (and still `none` before). -/
def CloseInv (uErr : Option String) (w : PacketWorld) : Prop :=
  ∃ c, w.cachedConn = some c ∧
    w.underlyingCloseCount = (if c.closeOnceDone then 1 else 0) ∧
    (w.closed = true → c.closeOnceDone = true) ∧
    (c.closeOnceDone = true → c.closeErr = uErr) ∧
    (c.closeOnceDone = false → c.closeErr = none)

theorem closeInv_initial (uErr : Option String) :
    CloseInv uErr initialPacketWorld := by
  refine ⟨{ closeOnceDone := false, closeErr := none }, rfl, rfl, ?_, ?_, fun _ => rfl⟩
  · intro h
    simp [initialPacketWorld] at h
  · intro h
    exact absurd h (by decide)

theorem closeStep_spec (uErr : Option String) (op : CloseOp) (w : PacketWorld)
    (hw : CloseInv uErr w) :
    CloseInv uErr (closeStep uErr op w).1 ∧
    ((closeStep uErr op w).1).onceDone = true ∧
    ((closeStep uErr op w).2 = none ∨ (closeStep uErr op w).2 = uErr) := by
  obtain ⟨c, hc, hcount, hclosed, herr, hnotyet⟩ := hw
  cases op with
  | conn =>
    by_cases hdone : c.closeOnceDone
    · have hs : closeStep uErr .conn w = (w, c.closeErr) := by
        simp [closeStep, NATPacketConnClose, hc, hdone]
      rw [hs]
      refine ⟨⟨c, hc, hcount, hclosed, herr, hnotyet⟩, ?_, Or.inr (herr hdone)⟩
      simp [PacketWorld.onceDone, hc, hdone]
    · have hs : closeStep uErr .conn w =
          ({ w with cachedConn := some ⟨true, uErr⟩,
                    underlyingCloseCount := w.underlyingCloseCount + 1 }, uErr) := by
        simp [closeStep, NATPacketConnClose, hc, hdone]
      rw [hs]
      refine ⟨⟨⟨true, uErr⟩, rfl, ?_, fun _ => rfl, fun _ => rfl,
        fun h => Bool.noConfusion h⟩, ?_, Or.inr rfl⟩
      · simp [hcount, hdone]
      · simp [PacketWorld.onceDone]
  | listener =>
    by_cases hcl : w.closed
    · have hs : closeStep uErr .listener w = (w, none) := by
        simp [closeStep, NATPacketListenerClose, hcl]
      rw [hs]
      have hdone := hclosed hcl
      exact ⟨⟨c, hc, hcount, hclosed, herr, hnotyet⟩,
        by simp [PacketWorld.onceDone, hc, hdone], Or.inl rfl⟩
    · by_cases hdone : c.closeOnceDone
      · have hs : closeStep uErr .listener w =
            ({ w with closed := true, renewalRunning := false }, c.closeErr) := by
          simp [closeStep, NATPacketListenerClose, hcl, NATPacketConnClose, hc, hdone]
        rw [hs]
        refine ⟨⟨c, ?_, ?_, fun _ => hdone, herr, hnotyet⟩, ?_, Or.inr (herr hdone)⟩
        · simpa using hc
        · simpa using hcount
        · simp [PacketWorld.onceDone, hc, hdone]
      · have hs : closeStep uErr .listener w =
            ({ w with closed := true, renewalRunning := false,
                      cachedConn := some ⟨true, uErr⟩,
                      underlyingCloseCount := w.underlyingCloseCount + 1 }, uErr) := by
          simp [closeStep, NATPacketListenerClose, hcl, NATPacketConnClose, hc, hdone]
        rw [hs]
        refine ⟨⟨⟨true, uErr⟩, rfl, ?_, fun _ => rfl, fun _ => rfl,
          fun h => Bool.noConfusion h⟩, ?_, Or.inr rfl⟩
        · simp [hcount, hdone]
        · simp [PacketWorld.onceDone]

theorem runCloses_inv (uErr : Option String) (ops : List CloseOp) (w : PacketWorld)
    (hw : CloseInv uErr w) :
    CloseInv uErr (runCloses uErr w ops).1 ∧
    (w.onceDone = true → ((runCloses uErr w ops).1).onceDone = true) ∧
    (∀ e ∈ (runCloses uErr w ops).2, e = none ∨ e = uErr) := by
  induction ops generalizing w with
  | nil =>
    exact ⟨hw, fun h => h, by simp [runCloses]⟩
  | cons op rest ih =>
    have hstep := closeStep_spec uErr op w hw
    have hrest := ih (closeStep uErr op w).1 hstep.1
    refine ⟨?_, ?_, ?_⟩
    · simpa [runCloses] using hrest.1
    · intro _
      simpa [runCloses] using hrest.2.1 hstep.2.1
    · intro e he
      simp only [runCloses, List.mem_cons] at he
      cases he with
      | inl h => rw [h]; exact hstep.2.2
      | inr h => exact hrest.2.2 e h

/-- C5 amended: any interleaving of N ≥ 1 `Close()` calls across the
listener and its cached wrapper closes the underlying socket exactly once;
every call returns either nil or the recorded result of that single
underlying close (so when the underlying close succeeds, every call,
including every call after the first, returns nil); and a repeat `Close()`
on the listener handle itself always returns nil — but a wrapper-level
`Close()` after the first (or a listener close routed through the
already-fired wrapper guard) returns the recorded error rather than nil. -/
theorem packet_close_exactly_once (uErr : Option String) (ops : List CloseOp)
    (hne : ops ≠ []) :
    ((runCloses uErr initialPacketWorld ops).1).underlyingCloseCount = 1 ∧
    (∀ e ∈ (runCloses uErr initialPacketWorld ops).2, e = none ∨ e = uErr) ∧
    (uErr = none → ∀ e ∈ (runCloses uErr initialPacketWorld ops).2, e = none) ∧
    (∀ w : PacketWorld, w.closed = true →
      (NATPacketListenerClose uErr w).2 = none) := by
  have h0 := closeInv_initial uErr
  refine ⟨?_, ?_, ?_, ?_⟩
  · cases ops with
    | nil => exact absurd rfl hne
    | cons op rest =>
      have hstep := closeStep_spec uErr op initialPacketWorld h0
      have hrest := runCloses_inv uErr rest (closeStep uErr op initialPacketWorld).1
        hstep.1
      have honce : ((runCloses uErr (closeStep uErr op initialPacketWorld).1 rest).1).onceDone = true :=
        hrest.2.1 hstep.2.1
      obtain ⟨c, hc, hcount, _, _, _⟩ := hrest.1
      have : c.closeOnceDone = true := by
        simpa [PacketWorld.onceDone, hc] using honce
      simp only [runCloses]
      rw [hcount, this]
      rfl
  · exact (runCloses_inv uErr ops initialPacketWorld h0).2.2
  · intro hnil e he
    have h := (runCloses_inv uErr ops initialPacketWorld h0).2.2 e he
    cases h with
    | inl h => exact h
    | inr h => rw [h, hnil]
  · intro w hcl
    simp [NATPacketListenerClose, hcl]

theorem packet_close_exactly_once_witness :
    ([CloseOp.conn, CloseOp.listener] ≠ ([] : List CloseOp)) ∧
    ((runCloses none initialPacketWorld [CloseOp.conn, CloseOp.listener]).1).underlyingCloseCount = 1 ∧
    (∀ e ∈ (runCloses none initialPacketWorld [CloseOp.conn, CloseOp.listener]).2,
      e = none) := by
  have h := packet_close_exactly_once none [CloseOp.conn, CloseOp.listener]
    (by decide)
  exact ⟨by decide, h.1, h.2.2.1 rfl⟩

/-- C5 counterexample: when the single underlying close fails (returns an
error), the wrapper's second `Close()` — a call strictly after the first —
returns that recorded error again, not nil: the `sync.Once` guard replays
`closeErr` on every later wrapper-level call. -/
theorem packet_close_second_call_not_nil :
    ((runCloses (some "close failed") initialPacketWorld
        [CloseOp.conn, CloseOp.conn]).1).underlyingCloseCount = 1 ∧
    (runCloses (some "close failed") initialPacketWorld
        [CloseOp.conn, CloseOp.conn]).2 =
      [some "close failed", some "close failed"] ∧
    (some "close failed" ≠ (none : Option String)) := by
  refine ⟨rfl, rfl, ?_⟩
  intro h
  cases h

/-! ## UPnP mapper (`UPnPMapper.MapPort` in the UPnP source file) -/

/-- The `AddPortMapping` request the UPnP client sends (remote host, enabled
flag and description are constants in the source and omitted). -/
structure AddPortMappingRequest where
  externalPort : Int
  protocol : String
  internalPort : Int
  leaseDurationSecs : Int
deriving DecidableEq

/-- A `UPnPMapper` with its environment: what `getLocalIP` resolves to and
how the IGD device answers `AddPortMapping`. -/
structure UPnPMapper where
  localIP : Except String String
  addPortMappingResult : Except String Unit

/-- `UPnPMapper.MapPort`: validate the port range (1–65535, guarding the
`uint16` casts), resolve the local IP, then call `AddPortMapping` with the
*internal* port in both the external-port and internal-port fields; on
success return the internal port as the external port.  The issued requests
are returned alongside the result. -/
def UPnPMapper.MapPort (u : UPnPMapper) (protocol : String)
    (internalPort : Int) (durationSecs : Int) :
    Except String Int × List AddPortMappingRequest :=
  if internalPort < 1 ∨ 65535 < internalPort then
    (.error "invalid port number (must be 1-65535)", [])
  else
    match u.localIP with
    | .error e => (.error ("failed to get local IP: " ++ e), [])
    | .ok _localIP =>
      let req : AddPortMappingRequest :=
        { externalPort := internalPort, protocol := protocol,
          internalPort := internalPort, leaseDurationSecs := durationSecs }
      match u.addPortMappingResult with
      | .error e => (.error ("UPnP port mapping failed: " ++ e), [req])
      | .ok _ => (.ok internalPort, [req])

/-- C10: every successful `UPnPMapper.MapPort` returns an external port
equal to the requested internal port (and every request it issues asks for
external port = internal port); consequently a renewal step backed by this
mapper, whose recorded external port already equals the internal port, never
fires the port-change callback and leaves the manager unchanged. -/
theorem upnp_mapPort_returns_internal_port (u : UPnPMapper) (protocol : String)
    (internalPort durationSecs extPort : Int)
    (hok : (u.MapPort protocol internalPort durationSecs).1 = .ok extPort) :
    extPort = internalPort ∧
    (∀ req ∈ (u.MapPort protocol internalPort durationSecs).2,
      req.externalPort = req.internalPort) ∧
    (∀ r : RenewalManager, r.externalPort = r.internalPort →
      r.internalPort = internalPort →
      r.renew (.ok extPort) = (r, [])) := by
  have hrange : ¬(internalPort < 1 ∨ 65535 < internalPort) := by
    intro h
    simp [UPnPMapper.MapPort, h] at hok
  cases hip : u.localIP with
  | error e =>
    exfalso
    simp [UPnPMapper.MapPort, hrange, hip] at hok
  | ok ip =>
    cases hadd : u.addPortMappingResult with
    | error e =>
      exfalso
      simp [UPnPMapper.MapPort, hrange, hip, hadd] at hok
    | ok _ =>
      have hext : extPort = internalPort := by
        simp [UPnPMapper.MapPort, hrange, hip, hadd] at hok
        exact hok.symm
      refine ⟨hext, ?_, ?_⟩
      · intro req hreq
        simp [UPnPMapper.MapPort, hrange, hip, hadd] at hreq
        rw [hreq]
      · intro r h1 h2
        have heq : extPort = r.externalPort := by rw [hext, ← h2, ← h1]
        simp [RenewalManager.renew, heq]

theorem upnp_mapPort_returns_internal_port_witness :
    ((UPnPMapper.MapPort ⟨.ok "192.168.1.10", .ok ()⟩ "TCP" 8080 5400).1 =
      .ok 8080) ∧
    ((8080 : Int) = 8080 ∧
      ∀ req ∈ (UPnPMapper.MapPort ⟨.ok "192.168.1.10", .ok ()⟩ "TCP" 8080 5400).2,
        req.externalPort = req.internalPort) := by
  have h := upnp_mapPort_returns_internal_port ⟨.ok "192.168.1.10", .ok ()⟩
    "TCP" 8080 5400 8080 rfl
  exact ⟨rfl, h.1, h.2.1⟩

/-! ## BSD routing-table parser (`parseNetstatOutput`) -/

/-- Whitespace separating fields within one netstat line (the relevant
subset of `unicode.IsSpace` used by Go's `strings.Fields`; `\n` never occurs
inside a line after splitting). -/
def isGoSpace (c : Char) : Bool :=
  c = ' ' ∨ c = '\t' ∨ c = '\r'

/-- Split a character list at every separator (like `strings.Split`):
always returns at least one group, separators dropped. -/
def splitChars (sep : Char → Bool) : List Char → List (List Char)
  | [] => [[]]
  | c :: cs =>
    match splitChars sep cs with
    | [] => [[c]]
    | g :: gs => if sep c then [] :: g :: gs else (c :: g) :: gs

/-- One dotted-quad component as accepted by Go's `net.ParseIP`: 1–3
decimal digits, value ≤ 255, no leading zero on multi-digit fields. -/
def parseOctet (cs : List Char) : Option Nat :=
  if cs = [] then none
  else if ¬ cs.all (fun c => c.isDigit) then none
  else if 3 < cs.length then none
  else if 1 < cs.length ∧ cs.headD ' ' = '0' then none
  else
    let n := cs.foldl (fun acc c => acc * 10 + (c.toNat - 48)) 0
    if n ≤ 255 then some n else none

/-- Dotted-quad IPv4 parse (`net.ParseIP` restricted to the IPv4 form; for
these gateway strings `To4()` is non-nil exactly when this succeeds). -/
def parseIPv4 (cs : List Char) : Option (Nat × Nat × Nat × Nat) :=
  match splitChars (fun c => c = '.') cs with
  | [a, b, c, d] =>
    match parseOctet a, parseOctet b, parseOctet c, parseOctet d with
    | some x, some y, some z, some w => some (x, y, z, w)
    | _, _, _, _ => none
  | _ => none

/-- Drop an appended `%interface` suffix (Go truncates at the first `%`). -/
def stripItfSuffix (cs : List Char) : List Char :=
  cs.takeWhile (fun c => c ≠ '%')

/-- A destination column marking a default route. -/
def isDefaultDest (d : List Char) : Bool :=
  d = "default".data ∨ d = "0.0.0.0".data ∨ d = "0.0.0.0/0".data

/-- The line scan inside `parseNetstatOutput`: for each line with at least
two fields whose destination is a default marker, skip gateways containing
`#` or lacking `.`, strip a `%` suffix, and return the first gateway that
parses as dotted IPv4; otherwise keep scanning. -/
def scanRouteLines : List (List Char) → Option (Nat × Nat × Nat × Nat)
  | [] => none
  | line :: rest =>
    match (splitChars isGoSpace line).filter (fun f => f ≠ []) with
    | dest :: gw :: _ =>
      if isDefaultDest dest then
        if gw.contains '#' ∨ ¬ gw.contains '.' then scanRouteLines rest
        else
          match parseIPv4 (stripItfSuffix gw) with
          | some ip => some ip
          | none => scanRouteLines rest
      else scanRouteLines rest
    | _ => scanRouteLines rest

/-- `parseNetstatOutput`: scan the netstat output line by line for the
default route's gateway. -/
def parseNetstatOutput (output : String) : Option (Nat × Nat × Nat × Nat) :=
  scanRouteLines (splitChars (fun c => c = '\n') output.data)

/-- The "Link-local gateway (should skip)" fixture from the repository's own
BSD parser test: a `default` line whose gateway is `link#5`, followed by a
line whose *destination* column is `192.168.1.1`. -/
def linkLocalFixture : String :=
  "Routing tables\n\nInternet:\nDestination        Gateway            Flags        Netif Expire\ndefault            link#5             UGSc           en0\n192.168.1.1        192.168.1.1        UGSc           en0\n"

set_option maxRecDepth 10000 in
/-- C9: the parser maps the plain default line (and the macOS-format test
fixture containing it) to 192.168.1.1 — but on the link#5 fixture it
returns no gateway at all: after skipping the `default link#5` line, the
following `192.168.1.1 192.168.1.1` line is never considered because its
destination column is not a default marker, contradicting the repository's
own test (which expects 192.168.1.1) and the claim. -/
theorem parseNetstat_skips_nondefault_destination :
    parseNetstatOutput "default 192.168.1.1 UGSc en0" = some (192, 168, 1, 1) ∧
    parseNetstatOutput
      "Routing tables\n\nInternet:\nDestination        Gateway            Flags        Netif Expire\ndefault            192.168.1.1        UGSc           en0\n127.0.0.1          127.0.0.1          UH             lo0\n192.168.1/24       link#4             UCS            en0\n"
      = some (192, 168, 1, 1) ∧
    parseNetstatOutput linkLocalFixture = none := by
  refine ⟨?_, ?_, ?_⟩ <;> decide
